import Mathlib

/-!
Verification development for the car-dealership chatbot repository
(`backend.py`: FastAPI HTTP surface; `frontend.py`: Streamlit UI script).

The two Python files duplicate the conversational pipeline (knowledge-base
lookup, inventory matching, prompt assembly, Gemini gateway, persistence).
Both copies are embedded here; definitions prefixed `backend_` come from
`backend.py` and `frontend_` from `frontend.py`.  Shared pure helpers
(SQLite `LIKE`, Python `str.lower`, `str.strip`, truthiness, `dict.get`)
are modelled once.
-/

/-! ### Character and string helpers (Python / SQLite semantics) -/

/-- ASCII lower-casing of one character.  SQLite's default `LIKE` folds case
only for ASCII `A`–`Z`, and Python's `str.lower` agrees on that range (all
strings occurring in this repository are ASCII where case matters). -/
def lowerC (c : Char) : Char :=
  if 65 ≤ c.toNat ∧ c.toNat ≤ 90 then Char.ofNat (c.toNat + 32) else c

/-- Python `str.lower` (ASCII fragment). -/
def lowerStr (s : String) : String := ⟨s.data.map lowerC⟩

/-- Whitespace characters removed by Python `str.strip()`. -/
def isPyWs (c : Char) : Bool :=
  c == ' ' || c == '\t' || c == '\n' || c == '\r' || c == '\x0b' || c == '\x0c'

/-- Python `str.strip()`: remove leading and trailing whitespace. -/
def pyStrip (s : String) : String :=
  ⟨((s.data.dropWhile isPyWs).reverse.dropWhile isPyWs).reverse⟩

/-- Python `x or ""` on an optional string (`None` becomes `""`; the empty
string is falsy, so it also maps to `""`, which is the same value). -/
def orEmpty : Option String → String
  | none => ""
  | some s => s

/-- `"sep".join(...)` for newline separators. -/
def joinNL (l : List String) : String := String.intercalate "\n" l

/-- Does `f` hold of some suffix of the list (the list itself included)? -/
def anySuffix (f : List Char → Bool) : List Char → Bool
  | [] => f []
  | l@(_ :: t) => f l || anySuffix f t

/-- Case-sensitive prefix test on character lists. -/
def isPrefixChars : List Char → List Char → Bool
  | [], _ => true
  | _ :: _, [] => false
  | a :: as, b :: bs => a == b && isPrefixChars as bs

/-- Case-sensitive contiguous-substring test on character lists; this is the
semantics of Python's `needle in hay` on strings. -/
def isInfixChars (n : List Char) (h : List Char) : Bool :=
  anySuffix (fun t => isPrefixChars n t) h

/-- Python `needle in hay` on strings. -/
def containsSub (needle hay : String) : Bool := isInfixChars needle.data hay.data

/-- Case-insensitive (ASCII) substring test, the reading of the spec's
"case-insensitive substring semantics". -/
def ciContains (needle hay : String) : Bool :=
  isInfixChars (needle.data.map lowerC) (hay.data.map lowerC)

/-! ### SQLite `LIKE`

`search_cars` runs `make LIKE '%q%' OR model LIKE '%q%' OR features LIKE
'%q%'`.  SQLite `LIKE` (no `ESCAPE`): `%` matches any sequence, `_` matches
exactly one character, other characters compare ASCII-case-insensitively. -/

/-- SQLite `LIKE` pattern matching: `likeM pattern s`. -/
def likeM : List Char → List Char → Bool
  | [], s => s.isEmpty
  | p :: ps, s =>
    if p = '%' then anySuffix (fun t => likeM ps t) s
    else
      match s with
      | [] => false
      | c :: t => if p = '_' then likeM ps t else (lowerC p == lowerC c) && likeM ps t

/-- `column LIKE '%q%'`, as issued by `search_cars` / the `/chat` handler. -/
def likeContains (q s : String) : Bool := likeM ('%' :: (q.data ++ ['%'])) s.data

/-- A string free of the `LIKE` metacharacters `%` and `_`. -/
def noWildStr (q : String) : Bool := q.data.all (fun c => c ≠ '%' && c ≠ '_')

/-! ### Car inventory (`cars` table, `search_cars`, snapshot query) -/

/-- One row of the `cars` table (surrogate id and timestamp omitted; the
list position of a row plays the role of its autoincrement id, i.e. store
insertion order). -/
structure Car where
  make : String
  model : String
  year : Nat
  price : Nat
  mileage : String
  fuel_type : String
  transmission : String
  features : String
  status : String
deriving DecidableEq

/-- The five seed rows inserted by `init_db` when the table is empty. -/
def seed_cars : List Car :=
  [ ⟨"Toyota", "Corolla", 2020, 3500000, "45,000 km", "Petrol", "Automatic",
      "ABS, Airbags, Power Steering, AC, Alloy Rims", "available"⟩,
    ⟨"Honda", "Civic", 2019, 3200000, "52,000 km", "Petrol", "CVT",
      "Cruise Control, Sunroof, Leather Seats, Navigation", "available"⟩,
    ⟨"Suzuki", "Alto", 2021, 1800000, "25,000 km", "Petrol", "Manual",
      "AC, Power Windows, Central Lock", "available"⟩,
    ⟨"Honda", "City", 2020, 2800000, "38,000 km", "Petrol", "Automatic",
      "ABS, Airbags, Alloy Rims, Multimedia", "available"⟩,
    ⟨"Toyota", "Yaris", 2022, 3900000, "15,000 km", "Petrol", "CVT",
      "Smart Entry, Push Start, Reverse Camera", "available"⟩ ]

/-- `SELECT * FROM cars WHERE status = 'available' AND (make LIKE '%q%' OR
model LIKE '%q%' OR features LIKE '%q%')` — the body of `search_cars` in
both files and of the inventory-matching step of `/chat`.  Rows are scanned
in insertion order. -/
def search_cars (q : String) (carsDb : List Car) : List Car :=
  carsDb.filter (fun c =>
    c.status == "available" &&
      (likeContains q c.make || likeContains q c.model || likeContains q c.features))

/-- Insert a car into a year-descending-sorted list, before the first row
whose year is not larger (so among equal years, earlier-scanned rows stay
first). -/
def insertByYear (a : Car) : List Car → List Car
  | [] => [a]
  | d :: ds => if d.year ≤ a.year then a :: d :: ds else d :: insertByYear a ds

/-- `ORDER BY year DESC` over the scan, modelled as a stable sort: SQLite
feeds the sorter in rowid (insertion) order and its merge keeps the input
order of rows whose sort keys compare equal. -/
def sortByYearDesc (l : List Car) : List Car := l.foldr insertByYear []

/-- `SELECT * FROM cars WHERE status = 'available' ORDER BY year DESC LIMIT
10` — the inventory snapshot of `/chat`. -/
def snapshot (carsDb : List Car) : List Car :=
  (sortByYearDesc (carsDb.filter (fun c => c.status == "available"))).take 10

/-- `SELECT * FROM cars WHERE status = 'available' ORDER BY year DESC` —
`get_all_cars` (no limit; the frontend prompt then slices `[:10]`). -/
def get_all_cars (carsDb : List Car) : List Car :=
  sortByYearDesc (carsDb.filter (fun c => c.status == "available"))

/-! ### Knowledge base (identical tables in both files) -/

/-- One topic of the static `knowledge_base` dict. -/
structure Topic where
  info : String
  keywords : List String
deriving DecidableEq

/-- The `knowledge_base` table, in dict insertion (= iteration) order. -/
def knowledge_base : List Topic :=
  [ ⟨"We offer flexible financing options with 20-30% down payment and up to 5 years installment plans. Interest rates start from 12% per annum.",
      ["finance", "loan", "installment", "payment plan", "emi", "down payment"]⟩,
    ⟨"All our cars come with a 3-month dealer warranty covering engine and transmission. Extended warranty packages available for up to 2 years.",
      ["warranty", "guarantee", "coverage", "protection"]⟩,
    ⟨"We accept car exchange! Bring your old car and we'll evaluate it for the best exchange value. We handle all documentation.",
      ["exchange", "trade-in", "old car", "swap"]⟩,
    ⟨"Our service center offers: Regular maintenance, Oil changes, Brake services, AC repair, Engine diagnostics, Body work and painting.",
      ["service", "maintenance", "repair", "fix", "mechanic"]⟩,
    ⟨"Free pre-purchase inspection available for all cars. Our certified technicians check 150+ points before delivery.",
      ["inspection", "check", "evaluate", "condition"]⟩,
    ⟨"Free home delivery within city limits. For outstation delivery, charges apply based on distance.",
      ["delivery", "shipping", "transport"]⟩,
    ⟨"We handle all documentation including: Registration transfer, Token tax, Insurance, Number plate transfer. Processing time: 7-14 days.",
      ["documents", "registration", "transfer", "paperwork", "token tax"]⟩,
    ⟨"We're open Monday to Saturday: 10:00 AM - 8:00 PM, Sunday: 11:00 AM - 6:00 PM. 24/7 support available via phone.",
      ["hours", "timing", "open", "close", "schedule"]⟩ ]

/-- `search_knowledge_base`: lower-case the query; for each topic in table
order, if some keyword occurs as a substring of the lowered query, append
that topic's info once (the Python inner loop `break`s on the first
matching keyword, i.e. appends iff any keyword matches). -/
def search_knowledge_base (q : String) : List String :=
  let ql := lowerStr q
  knowledge_base.foldl
    (fun acc t => if t.keywords.any (fun k => containsSub k ql) then acc ++ [t.info] else acc)
    []

/-! ### Python-side JSON values and `dict.get` semantics

The Gemini response body (`res.json()`) is an untyped JSON value.  Both
files drill into it with `dict.get`, truthiness tests and list indexing;
`jget` raises (models Python's `AttributeError`) when the receiver is not a
dict, exactly as `candidate.get(...)` does on a non-dict candidate. -/

/-- Untyped JSON/Python values. -/
inductive JVal where
  | null
  | bool (b : Bool)
  | num (n : Int)
  | str (s : String)
  | arr (elems : List JVal)
  | obj (fields : List (String × JVal))

/-- Python truthiness of a JSON value. -/
def truthy : JVal → Bool
  | .null => false
  | .bool b => b
  | .num n => n != 0
  | .str s => s != ""
  | .arr elems => !elems.isEmpty
  | .obj fields => !fields.isEmpty

/-- Python `a or b`. -/
def pyOr (a b : JVal) : JVal := if truthy a then a else b

/-- Python `d.get(key)`: `some v` if the key is present, `none` if absent,
and an exception when the receiver is not a dict. -/
def jget : JVal → String → Except String (Option JVal)
  | .obj fields, k => .ok ((fields.find? (fun f => f.1 == k)).map (fun f => f.2))
  | _, _ => .error "AttributeError"

/-- Python `xs[0]` guarded by truthiness.  (On truthy non-list values Python
raises various exceptions either here or at the following `.get`; the model
collapses them into one error, which the callers treat identically.) -/
def jindex0 : JVal → Except String JVal
  | .arr (x :: _) => .ok x
  | _ => .error "IndexError"

/-! ### LLM gateway: backend (`/chat`, lines 353–388) -/

/-- Fallback returned by `/chat` when no API key is configured. -/
def not_configured_fallback : String :=
  "⚠️ AI service not configured. Please contact support at 0300-1234567."

/-- Fallback assigned when the Gemini call or response parsing raises. -/
def trouble_fallback : String :=
  "⚠️ I'm having trouble right now. Please try again or call us at: 0300-1234567"

/-- Fallback assigned when parsing succeeds but yields no (truthy) text. -/
def couldnt_generate_fallback : String :=
  "⚠️ Sorry, I couldn't generate a response. Please try again or call 0300-1234567."

/-- Backend call-to-action trigger words. -/
def backend_triggers : List String :=
  ["interested", "would you like", "book", "schedule", "test drive"]

/-- Backend suggestion line appended when a trigger word occurs. -/
def backend_suggestion : String :=
  "\n\n💡 _Use the forms in the sidebar to book or save your details!_"

/-- Backend post-processing (line 385–386): append the suggestion iff some
trigger word occurs in the lower-cased text. -/
def backend_apply_suffix (t : String) : String :=
  if backend_triggers.any (fun w => containsSub w (lowerStr t)) then t ++ backend_suggestion
  else t

/-- `<=safely extract response text>` (backend lines 368–376): the value of
`response_text` after the defensive drill-down.  `candidates` and `parts`
are used only when truthy *and* lists; `content` defaults to `{}`; the
final `part.get("text", "")` has no shape guard, so its value is returned
as-is (possibly a non-string). -/
def extract_text (body : JVal) : Except String JVal :=
  match jget body "candidates" with
  | .error e => .error e
  | .ok cand0 =>
    match pyOr (cand0.getD JVal.null) (JVal.arr []) with
    | JVal.arr (c :: _) =>
      (match jget c "content" with
       | .error e => .error e
       | .ok content0 =>
         match jget (pyOr (content0.getD JVal.null) (JVal.obj [])) "parts" with
         | .error e => .error e
         | .ok parts0 =>
           match pyOr (parts0.getD JVal.null) (JVal.arr []) with
           | JVal.arr (p :: _) =>
             (match jget p "text" with
              | .error e => .error e
              | .ok t0 => .ok (t0.getD (JVal.str "")))
           | _ => .ok (JVal.str ""))
    | _ => .ok (JVal.str "")

/-- The 2xx-body text field, when present and truthy, is a string.  (True of
every response the Gemini API actually emits; the one shape the backend's
defensive parsing does not guard against.) -/
def textShapeOk (body : JVal) : Bool :=
  match extract_text body with
  | .error _ => true
  | .ok (JVal.str _) => true
  | .ok t => !truthy t

/-- Outcome of the `requests` POST: an exception (connection error, timeout,
retries exhausted), or a final HTTP response with status and JSON body. -/
inductive HttpOutcome where
  | exn (msg : String)
  | resp (status : Nat) (body : JVal)

/-- Backend inner `try`/`except` (lines 363–382): the value of
`response_text` afterwards.  `raise_for_status` raises for 4xx/5xx; any
exception is caught and replaced by the trouble fallback; falsy extracted
text becomes the couldn't-generate fallback. -/
def backend_llm_step : HttpOutcome → JVal
  | .exn _ => JVal.str trouble_fallback
  | .resp status body =>
    if 400 ≤ status ∧ status < 600 then JVal.str trouble_fallback
    else
      match extract_text body with
      | .error _ => JVal.str trouble_fallback
      | .ok t => if truthy t then t else JVal.str couldnt_generate_fallback

/-- Backend LLM stage of `/chat` (lines 353–388).  With no key, the handler
returns the configuration fallback before any network call.  Otherwise the
suffix step runs `response_text.lower()` outside the inner `try`: if the
extracted value was a truthy non-string, this raises and the endpoint's
outer handler turns it into an HTTP 500 (`.error`). -/
def backend_generate (key : Option String) (transport : String → HttpOutcome)
    (prompt : String) : Except String String :=
  match key with
  | none => .ok not_configured_fallback
  | some _ =>
    match backend_llm_step (transport prompt) with
    | JVal.str s => .ok (backend_apply_suffix s)
    | _ => .error "Internal server error"

/-! ### LLM gateway: frontend (`ask_gemini`, lines 259–328) -/

/-- Frontend message when the key is missing (note: no phone number). -/
def frontend_key_missing_msg : String :=
  "⚠️ AI key not configured in frontend. Please configure GEMINI_API_KEY in .env or Streamlit secrets."

/-- Frontend message when the 200 body has no truthy candidates/parts. -/
def frontend_parse_fail_msg : String :=
  "⚠️ Couldn't parse AI response."

/-- Frontend `except` message: a fixed prefix followed by `str(e)`. -/
def frontend_trouble_msg (e : String) : String :=
  "⚠️ I'm having trouble connecting right now. Please try again or call us at: 0300-1234567\n\nError: " ++ e

/-- Frontend trigger words: `shall i` instead of `test drive`. -/
def frontend_triggers : List String :=
  ["interested", "would you like", "shall i", "book", "schedule"]

/-- Frontend suggestion line (different wording from the backend's). -/
def frontend_suggestion : String :=
  "\n\n💡 _Tip: Use the forms in the sidebar to book a test drive or save your details!_"

/-- Frontend post-processing (lines 323–324). -/
def frontend_apply_suffix (t : String) : String :=
  if frontend_triggers.any (fun w => containsSub w (lowerStr t)) then t ++ frontend_suggestion
  else t

/-- Frontend response drill-down (lines 317–326): `some (some t)` when a
truthy candidates list and truthy parts list produced a text value `t`;
`some none`… encoded as `.ok none` when a falsy `candidates` or `parts`
fell through to the parse-failure return; `.error` when an exception was
raised (caught by the surrounding `except`). -/
def frontend_extract (body : JVal) : Except String (Option JVal) :=
  match jget body "candidates" with
  | .error e => .error e
  | .ok cand0 =>
    let candidates := pyOr (cand0.getD JVal.null) (JVal.arr [])
    if truthy candidates then
      match jindex0 candidates with
      | .error e => .error e
      | .ok c0 =>
        match jget c0 "content" with
        | .error e => .error e
        | .ok content0 =>
          match jget (content0.getD (JVal.obj [])) "parts" with
          | .error e => .error e
          | .ok parts0 =>
            let parts := parts0.getD (JVal.arr [])
            if truthy parts then
              match jindex0 parts with
              | .error e => .error e
              | .ok p0 =>
                match jget p0 "text" with
                | .error e => .error e
                | .ok t0 => .ok (some (t0.getD (JVal.str "")))
            else .ok none
    else .ok none

/-! ### Prompt assembly -/

def digitChar (d : Nat) : Char := Char.ofNat (48 + d)

/-- Decimal digits of `n`, least significant first (`fuel ≥` digit count). -/
def natDigitsRev : Nat → Nat → List Char
  | 0, _ => []
  | fuel + 1, n => if n < 10 then [digitChar n] else digitChar (n % 10) :: natDigitsRev fuel (n / 10)

/-- Insert `,` after every third digit of a least-significant-first digit
list (no trailing separator). -/
def commaRev : List Char → Nat → List Char
  | [], _ => []
  | [c], _ => [c]
  | c :: cs, k => if k == 3 then c :: ',' :: commaRev cs 1 else c :: commaRev cs (k + 1)

/-- Python `f"{n:,.0f}"` on the (integral) car prices: digit grouping. -/
def pkrFormat (n : Nat) : String := ⟨(commaRev (natDigitsRev 20 n) 1).reverse⟩

/-- Decimal rendering of a `Nat` (for `f"{car.year}"`). -/
def natStr (n : Nat) : String := ⟨(natDigitsRev 20 n).reverse⟩

/-- One inventory-snapshot line, `- make model year (PKR price)`; identical
f-string in both files. -/
def render_inventory_line (car : Car) : String :=
  "- " ++ car.make ++ " " ++ car.model ++ " " ++ natStr car.year ++ " (PKR " ++ pkrFormat car.price ++ ")"

/-- One detailed matching-car block; identical f-string in both files. -/
def render_car_detail (car : Car) : String :=
  "📌 " ++ car.make ++ " " ++ car.model ++ " " ++ natStr car.year ++ " - PKR " ++ pkrFormat car.price ++
    "\n   Mileage: " ++ car.mileage ++ " | Fuel: " ++ car.fuel_type ++ " | Transmission: " ++ car.transmission ++
    "\n   Features: " ++ car.features

/-- `kb_info`: every topic's info text, one `- ` line each, regardless of
query relevance; identical in both files. -/
def kb_info_text : String := joinNL (knowledge_base.map (fun t => "- " ++ t.info))

/-- Backend `car_details` (lines 303–308): empty string when no matching
cars, else the first three matches rendered and joined by blank lines. -/
def backend_car_details (cars : List Car) : String :=
  if cars.isEmpty then "" else String.intercalate "\n\n" ((cars.take 3).map render_car_detail)

/-- Backend `context` f-string (lines 314–331). -/
def backend_context (car_inventory kb_info : String) : String :=
  "You are an expert customer support assistant for a car dealership in Pakistan." ++
  "\n\nAVAILABLE INVENTORY:\n" ++ car_inventory ++
  "\n\nSERVICES & POLICIES:\n" ++ kb_info ++
  "\n\nYOUR ROLE:" ++
  "\n- Help customers find the right car based on their needs and budget" ++
  "\n- Answer questions about financing, warranties, services, and policies" ++
  "\n- Guide customers to book test drives or schedule service appointments" ++
  "\n- Be friendly, professional, and helpful" ++
  "\n- Use PKR currency format" ++
  "\n\nIMPORTANT:" ++
  "\n- Keep responses concise but informative" ++
  "\n- If customer shows interest, encourage them to take action"

/-- `additional_context` (backend lines 333–337): each block appears only
when non-empty. -/
def additional_context_text (kb_matches : List String) (car_details : String) : String :=
  (if kb_matches.isEmpty then "" else "\n\nRELEVANT INFORMATION:\n" ++ joinNL kb_matches) ++
  (if car_details == "" then "" else "\n\nMATCHING CARS:\n" ++ car_details)

/-- Python `l[-10:]`: the `min n 10` most recent entries, order preserved. -/
def lastN {α : Type} (n : Nat) (l : List α) : List α := l.drop (l.length - n)

/-- `f"{role}: {content}"`. -/
def renderHistEntry (m : String × String) : String := m.1 ++ ": " ++ m.2

/-- Backend history window (line 339): the last 10 entries of
`request.history`, one rendered line each. -/
def backend_history_lines (history : List (String × String)) : List String :=
  (lastN 10 history).map renderHistEntry

/-- Backend `history_text` (line 339), `""` when the history is empty. -/
def backend_history_text (history : List (String × String)) : String :=
  if history.isEmpty then "" else joinNL (backend_history_lines history)

/-- Frontend history window (line 451): the last 10 entries of
`st.session_state.messages` — built *after* the current user input was
appended to that list. -/
def frontend_history_lines (messages : List (String × String)) : List String :=
  (lastN 10 messages).map renderHistEntry

/-- Frontend `history` string (line 451). -/
def frontend_history_text (messages : List (String × String)) : String :=
  joinNL (frontend_history_lines messages)

/-- Backend `full_prompt` f-string (lines 341–350). -/
def backend_full_prompt (context additional history_text user_message : String) : String :=
  context ++ "\n\n" ++ additional ++
  "\n\nCONVERSATION HISTORY:\n" ++ history_text ++
  "\n\nCUSTOMER QUERY: " ++ user_message ++
  "\n\nProvide a helpful, natural response."

/-- Frontend `context` f-string (lines 269–288). -/
def frontend_context (car_list kb_info : String) : String :=
  "You are an expert customer support assistant for a car dealership in Pakistan." ++
  "\n\nAVAILABLE INVENTORY:\n" ++ car_list ++
  "\n\nSERVICES & POLICIES:\n" ++ kb_info ++
  "\n\nYOUR ROLE:" ++
  "\n- Help customers find the right car based on their needs and budget" ++
  "\n- Answer questions about financing, warranties, services, and policies" ++
  "\n- Guide customers to book test drives or schedule service appointments" ++
  "\n- Capture lead information when customers show interest" ++
  "\n- Be friendly, professional, and helpful" ++
  "\n- Use PKR currency format" ++
  "\n\nIMPORTANT:" ++
  "\n- If customer asks about a specific car, provide detailed information" ++
  "\n- If customer shows interest, encourage them to fill the lead form or book a test drive" ++
  "\n- Keep responses concise but informative"

/-- Frontend `get_car_details` (lines 249–256): `None` when no matches. -/
def frontend_get_car_details (carsDb : List Car) (q : String) : Option String :=
  let cars := search_cars q carsDb
  if cars.isEmpty then none
  else some (String.intercalate "\n\n" ((cars.take 3).map render_car_detail))

/-- Frontend `full_prompt` (lines 264–307). -/
def frontend_full_prompt (carsDb : List Car) (user_query conversation_history : String) : String :=
  let cars := get_all_cars carsDb
  let car_list := joinNL ((cars.take 10).map render_inventory_line)
  let kb_matches := search_knowledge_base user_query
  let additional :=
    (if kb_matches.isEmpty then "" else "\n\nRELEVANT INFORMATION:\n" ++ joinNL kb_matches) ++
    (match frontend_get_car_details carsDb user_query with
     | none => ""
     | some d => "\n\nMATCHING CARS:\n" ++ d)
  frontend_context car_list kb_info_text ++ "\n\n" ++ additional ++
  "\n\nCONVERSATION HISTORY:\n" ++ conversation_history ++
  "\n\nCUSTOMER QUERY: " ++ user_query ++
  "\n\nProvide a helpful, natural response. If you mentioned cars or services, encourage the customer to take the next step (book test drive, fill lead form, etc.)"

/-- Frontend `ask_gemini` (lines 259–328). -/
def frontend_ask (key : Option String) (transport : String → HttpOutcome)
    (carsDb : List Car) (user_query conversation_history : String) : String :=
  match key with
  | none => frontend_key_missing_msg
  | some _ =>
    let full_prompt := frontend_full_prompt carsDb user_query conversation_history
    match transport full_prompt with
    | .exn e => frontend_trouble_msg e
    | .resp status body =>
      if 400 ≤ status ∧ status < 600 then frontend_trouble_msg "HTTPError"
      else
        match frontend_extract body with
        | .error e => frontend_trouble_msg e
        | .ok none => frontend_parse_fail_msg
        | .ok (some t) =>
          match t with
          | JVal.str s => frontend_apply_suffix s
          | _ => frontend_trouble_msg "AttributeError"

/-! ### Persistence rows and chat-turn orchestration -/

/-- One row of the `messages` table (id/timestamp omitted). -/
structure MsgRow where
  session_id : String
  role : String
  text : String
deriving DecidableEq

/-- `save_message` (backend lines 241–253 and frontend lines 118–123):
the inserted row.  The fields are bound as-is — no `strip()`. -/
def save_message_row (session_id role text : String) : MsgRow :=
  ⟨session_id, role, text⟩

/-- Result of the backend `/chat` handler: the HTTP response (or the outer
handler's 500), and the rows the handler inserts into `messages`. -/
structure BackendChatResult where
  response : Except String String
  message_writes : List MsgRow

/-- Backend `/chat` endpoint (lines 282–392).  It reads the knowledge base
and the car inventory, assembles the prompt and calls Gemini; its body
contains no `INSERT INTO messages`, so `message_writes` is empty —
persisting the turn is left to the separate `/messages/save` endpoint. -/
def backend_chat (carsDb : List Car) (key : Option String)
    (transport : String → HttpOutcome) (session_id user_message : String)
    (history : List (String × String)) : BackendChatResult :=
  let kb_matches := search_knowledge_base user_message
  let cars := search_cars user_message carsDb
  let all_cars := snapshot carsDb
  let car_details := backend_car_details cars
  let car_inventory := joinNL (all_cars.map render_inventory_line)
  let full_prompt := backend_full_prompt (backend_context car_inventory kb_info_text)
    (additional_context_text kb_matches car_details) (backend_history_text history) user_message
  { response := backend_generate key transport full_prompt
    message_writes := [] }

/-- State after one frontend chat turn (lines 441–456). -/
structure TurnOutcome where
  store : List MsgRow
  messages : List (String × String)
  reply : String

/-- One frontend chat turn (lines 441–456): append the user input to the
session messages, `save_message(..., "user", ...)`, build the history
window from the *updated* message list, call `ask_gemini`, then append and
`save_message(..., "assistant", ...)` the reply. -/
def frontend_chat_turn (store : List MsgRow) (messages : List (String × String))
    (session_id user_input : String) (key : Option String)
    (transport : String → HttpOutcome) (carsDb : List Car) : TurnOutcome :=
  let messages1 := messages ++ [("user", user_input)]
  let store1 := store ++ [save_message_row session_id "user" user_input]
  let history := frontend_history_text messages1
  let response := frontend_ask key transport carsDb user_input history
  ⟨store1 ++ [save_message_row session_id "assistant" response],
   messages1 ++ [("assistant", response)], response⟩

/-! ### Lead / test-drive / service-request writes -/

/-- One row of `leads` (id, status default, timestamp omitted). -/
structure LeadRow where
  name : String
  phone : String
  email : String
  interested_in : String
  budget : String
  notes : String
deriving DecidableEq

/-- Backend `/leads` insert (lines 400–401): required fields stripped,
optional fields defaulted to `""` then stripped. -/
def backend_create_lead (name phone : String)
    (email interested_in budget notes : Option String) : LeadRow :=
  ⟨pyStrip name, pyStrip phone, pyStrip (orEmpty email), pyStrip (orEmpty interested_in),
   pyStrip (orEmpty budget), pyStrip (orEmpty notes)⟩

/-- One row of `test_drives` (id, status default, timestamp omitted). -/
structure TestDriveRow where
  customer_name : String
  phone : String
  email : String
  car_model : String
  preferred_date : String
  preferred_time : String
deriving DecidableEq

/-- Backend `/test-drives` insert (lines 428–429): every field stripped. -/
def backend_create_test_drive (customer_name phone : String) (email : Option String)
    (car_model preferred_date preferred_time : String) : TestDriveRow :=
  ⟨pyStrip customer_name, pyStrip phone, pyStrip (orEmpty email), pyStrip car_model,
   pyStrip preferred_date, pyStrip preferred_time⟩

/-- Frontend `save_test_drive` (lines 169–175): name, phone, email and car
model stripped, but `preferred_date` and `preferred_time` inserted raw. -/
def frontend_save_test_drive
    (customer_name phone email car_model preferred_date preferred_time : String) : TestDriveRow :=
  ⟨pyStrip customer_name, pyStrip phone, pyStrip email, pyStrip car_model,
   preferred_date, preferred_time⟩

/-- One row of `service_requests` (id, status default, timestamp omitted). -/
structure ServiceRow where
  customer_name : String
  phone : String
  car_model : String
  service_type : String
  description : String
deriving DecidableEq

/-- Backend `/service-requests` insert (lines 456–457). -/
def backend_create_service_request (customer_name phone car_model service_type : String)
    (description : Option String) : ServiceRow :=
  ⟨pyStrip customer_name, pyStrip phone, pyStrip car_model, pyStrip service_type,
   pyStrip (orEmpty description)⟩

/-- A Gemini 200 body of the healthy shape, with text `t`. -/
def gemini_body (t : String) : JVal :=
  JVal.obj [("candidates", JVal.arr [JVal.obj [("content",
    JVal.obj [("parts", JVal.arr [JVal.obj [("text", JVal.str t)]])])]])]

/-! ## Helper lemmas -/

theorem anySuffix_nil_true (f : List Char → Bool) (h : f [] = true) :
    ∀ s, anySuffix f s = true
  | [] => h
  | _ :: t => by simp [anySuffix, anySuffix_nil_true f h t]

theorem likeM_percent_nil : ∀ s, likeM ['%'] s = true := by
  intro s
  show anySuffix (fun t => likeM [] t) s = true
  exact anySuffix_nil_true _ rfl s

theorem likeM_lit_percent : ∀ (p : List Char),
    p.all (fun c => c ≠ '%' && c ≠ '_') = true →
    ∀ s, likeM (p ++ ['%']) s = isPrefixChars (p.map lowerC) (s.map lowerC)
  | [], _, s => by
    simp [likeM_percent_nil s, isPrefixChars]
  | a :: p', hp, s => by
    have ha : (a ≠ '%' && a ≠ '_') = true ∧ p'.all (fun c => c ≠ '%' && c ≠ '_') = true := by
      simpa [List.all_cons] using hp
    have ha1 : a ≠ '%' := by
      have := ha.1; simp [Bool.and_eq_true, decide_eq_true_eq] at this; exact this.1
    have ha2 : a ≠ '_' := by
      have := ha.1; simp [Bool.and_eq_true, decide_eq_true_eq] at this; exact this.2
    cases s with
    | nil => simp [likeM, isPrefixChars, ha1]
    | cons c t =>
      simp only [List.cons_append, likeM, if_neg ha1, if_neg ha2, List.map_cons, isPrefixChars,
        List.append_eq]
      rw [likeM_lit_percent p' ha.2 t]

theorem anySuffix_map (f : List Char → Bool) (g : Char → Char) :
    ∀ s, anySuffix (fun t => f (t.map g)) s = anySuffix f (s.map g)
  | [] => rfl
  | c :: t => by
    simp only [anySuffix, List.map_cons]
    rw [anySuffix_map f g t]

theorem likeContains_eq_ciContains (q : String) (hq : noWildStr q = true) (s : String) :
    likeContains q s = ciContains q s := by
  unfold likeContains ciContains
  show anySuffix (fun t => likeM (q.data ++ ['%']) t) s.data = _
  have h1 : (fun t => likeM (q.data ++ ['%']) t)
      = (fun t : List Char => isPrefixChars (q.data.map lowerC) (t.map lowerC)) :=
    funext (likeM_lit_percent q.data hq)
  rw [h1, anySuffix_map (fun t => isPrefixChars (q.data.map lowerC) t) lowerC s.data]
  rfl

/-- C10: for the empty query, `LIKE '%%'` matches every string, so
`search_cars` returns exactly the rows with `status = 'available'`: a blank
search or blank chat message matches the whole available inventory. -/
theorem search_cars_empty_query :
    (∀ s : String, likeContains "" s = true)
    ∧ ∀ carsDb : List Car,
        search_cars "" carsDb = carsDb.filter (fun c => c.status == "available") := by
  have hlike : ∀ s : String, likeContains "" s = true := by
    intro s
    show anySuffix (fun t => likeM ['%'] t) s.data = true
    exact anySuffix_nil_true _ (likeM_percent_nil []) s.data
  refine ⟨hlike, fun carsDb => ?_⟩
  unfold search_cars
  induction carsDb with
  | nil => rfl
  | cons c cs ih => simp [List.filter_cons, hlike, ih]

theorem foldl_if_append (p : Topic → Bool) :
    ∀ (l : List Topic) (acc : List String),
      l.foldl (fun a t => if p t then a ++ [t.info] else a) acc
        = acc ++ (l.filter p).map Topic.info
  | [], acc => by simp
  | t :: l', acc => by
    by_cases h : p t
    · simp [List.foldl_cons, h, foldl_if_append p l' (acc ++ [t.info]), List.filter_cons]
    · simp [List.foldl_cons, h, foldl_if_append p l' acc, List.filter_cons]

/-- C4: `search_knowledge_base` lower-cases the query and returns, in table
iteration order, the info text of exactly the topics having some keyword
that is a substring of the lowered query, each once; with no keyword
occurrence at all the result is empty. -/
theorem search_knowledge_base_spec (q : String) :
    search_knowledge_base q
      = (knowledge_base.filter
          (fun t => t.keywords.any (fun k => containsSub k (lowerStr q)))).map Topic.info
    ∧ ((∀ t, t ∈ knowledge_base → ∀ k, k ∈ t.keywords → containsSub k (lowerStr q) = false) →
        search_knowledge_base q = []) := by
  have h1 : search_knowledge_base q
      = (knowledge_base.filter
          (fun t => t.keywords.any (fun k => containsSub k (lowerStr q)))).map Topic.info := by
    unfold search_knowledge_base
    rw [foldl_if_append]
    simp
  refine ⟨h1, fun hnone => ?_⟩
  rw [h1]
  have : knowledge_base.filter (fun t => t.keywords.any (fun k => containsSub k (lowerStr q))) = [] := by
    rw [List.filter_eq_nil_iff]
    intro t ht
    rw [List.any_eq_true]
    rintro ⟨k, hk, hck⟩
    rw [hnone t ht k hk] at hck
    exact Bool.false_ne_true hck
  rw [this]
  rfl

/-- C4 witness: the query `"zzz"` contains no knowledge-base keyword, and
`search_knowledge_base` returns the empty sequence on it. -/
theorem search_knowledge_base_spec_witness :
    (∀ t, t ∈ knowledge_base → ∀ k, k ∈ t.keywords → containsSub k (lowerStr "zzz") = false)
    ∧ search_knowledge_base "zzz" = [] :=
  ⟨by decide, (search_knowledge_base_spec "zzz").2 (by decide)⟩

/-- C2 (amended): a car is never returned by `search_cars` unless its status
is `"available"`, for every query; and for every query free of the SQL
`LIKE` metacharacters `%` and `_`, a car is returned iff it is available and
the query is a case-insensitive substring of its make, model or features.
(The original claim fails for queries containing `LIKE` wildcards, which
the code passes into the pattern unescaped.) -/
theorem search_cars_spec :
    (∀ (q : String) (carsDb : List Car) (c : Car),
        c ∈ search_cars q carsDb → c.status = "available")
    ∧ ∀ (q : String) (carsDb : List Car) (c : Car), noWildStr q = true →
        (c ∈ search_cars q carsDb ↔
          c ∈ carsDb ∧ c.status = "available" ∧
            (ciContains q c.make = true ∨ ciContains q c.model = true ∨
              ciContains q c.features = true)) := by
  constructor
  · intro q carsDb c hc
    have := (List.mem_filter.mp hc).2
    have hstat : (c.status == "available") = true := by
      cases hb : (c.status == "available") with
      | true => rfl
      | false => rw [hb] at this; simp at this
    exact eq_of_beq hstat
  · intro q carsDb c hq
    unfold search_cars
    rw [List.mem_filter]
    simp only [Bool.and_eq_true, Bool.or_eq_true, beq_iff_eq,
      likeContains_eq_ciContains q hq]
    tauto

/-- C2 witness: searching `"honda"` (wildcard-free) over the seed inventory
returns the Honda Civic, and the equivalence instantiates there. -/
theorem search_cars_spec_witness :
    noWildStr "honda" = true
    ∧ ((⟨"Honda", "Civic", 2019, 3200000, "52,000 km", "Petrol", "CVT",
          "Cruise Control, Sunroof, Leather Seats, Navigation", "available"⟩ : Car)
          ∈ search_cars "honda" seed_cars ↔
        (⟨"Honda", "Civic", 2019, 3200000, "52,000 km", "Petrol", "CVT",
          "Cruise Control, Sunroof, Leather Seats, Navigation", "available"⟩ : Car) ∈ seed_cars
        ∧ ("available" : String) = "available"
        ∧ (ciContains "honda" "Honda" = true ∨ ciContains "honda" "Civic" = true ∨
            ciContains "honda" "Cruise Control, Sunroof, Leather Seats, Navigation" = true)) :=
  ⟨by decide, search_cars_spec.2 "honda" seed_cars _ (by decide)⟩

/-- C2 counterexample: the query `"%"` is a `LIKE` wildcard: `search_cars`
returns the Toyota Corolla although `"%"` is not a substring of its make,
model or features, so the claimed iff with case-insensitive substring
semantics is false at this input. -/
theorem search_cars_cex :
    ((⟨"Toyota", "Corolla", 2020, 3500000, "45,000 km", "Petrol", "Automatic",
        "ABS, Airbags, Power Steering, AC, Alloy Rims", "available"⟩ : Car)
        ∈ search_cars "%" seed_cars)
    ∧ ciContains "%" "Toyota" = false
    ∧ ciContains "%" "Corolla" = false
    ∧ ciContains "%" "ABS, Airbags, Power Steering, AC, Alloy Rims" = false := by
  decide

theorem mem_insertByYear (a c : Car) : ∀ l : List Car,
    (c ∈ insertByYear a l ↔ c = a ∨ c ∈ l)
  | [] => by simp [insertByYear]
  | d :: ds => by
    by_cases h : d.year ≤ a.year
    · simp [insertByYear, h]
    · simp [insertByYear, h, mem_insertByYear a c ds]
      tauto

theorem mem_sortByYearDesc (c : Car) : ∀ l : List Car,
    (c ∈ sortByYearDesc l ↔ c ∈ l)
  | [] => Iff.rfl
  | a :: l' => by
    show c ∈ insertByYear a (sortByYearDesc l') ↔ _
    rw [mem_insertByYear, mem_sortByYearDesc c l']
    simp

theorem pairwise_insertByYear (a : Car) : ∀ l : List Car,
    List.Pairwise (fun x z => z.year ≤ x.year) l →
    List.Pairwise (fun x z => z.year ≤ x.year) (insertByYear a l)
  | [], _ => by simp [insertByYear]
  | d :: ds, hp => by
    rcases List.pairwise_cons.mp hp with ⟨hd, hds⟩
    by_cases h : d.year ≤ a.year
    · simp only [insertByYear, if_pos h]
      refine List.pairwise_cons.mpr ⟨?_, hp⟩
      intro x hx
      rcases List.mem_cons.mp hx with rfl | hx'
      · exact h
      · exact le_trans (hd x hx') h
    · simp only [insertByYear, if_neg h]
      refine List.pairwise_cons.mpr ⟨?_, pairwise_insertByYear a ds hds⟩
      intro x hx
      rcases (mem_insertByYear a x ds).mp hx with rfl | hx'
      · exact le_of_lt (Nat.lt_of_not_le h)
      · exact hd x hx'

theorem pairwise_sortByYearDesc : ∀ l : List Car,
    List.Pairwise (fun x z => z.year ≤ x.year) (sortByYearDesc l)
  | [] => List.Pairwise.nil
  | a :: l' => pairwise_insertByYear a (sortByYearDesc l') (pairwise_sortByYearDesc l')

theorem filter_insertByYear (a : Car) (y : Nat) : ∀ l : List Car,
    (insertByYear a l).filter (fun c => c.year == y)
      = if a.year == y then a :: l.filter (fun c => c.year == y)
        else l.filter (fun c => c.year == y)
  | [] => by
    by_cases hy : a.year = y <;> simp [insertByYear, List.filter_cons, hy]
  | d :: ds => by
    simp only [insertByYear]
    by_cases h : d.year ≤ a.year
    · rw [if_pos h]
      by_cases hy : a.year = y <;> simp [List.filter_cons, hy, beq_iff_eq]
    · rw [if_neg h]
      have hlt : a.year < d.year := Nat.lt_of_not_le h
      by_cases hy : a.year = y
      · have hdy : ¬ d.year = y := by omega
        simp [List.filter_cons, hy, hdy, beq_iff_eq, filter_insertByYear a y ds]
      · by_cases hdy : d.year = y <;>
          simp [List.filter_cons, hy, hdy, beq_iff_eq, filter_insertByYear a y ds]

theorem filter_sortByYearDesc (y : Nat) : ∀ l : List Car,
    (sortByYearDesc l).filter (fun c => c.year == y)
      = l.filter (fun c => c.year == y)
  | [] => rfl
  | a :: l' => by
    show (insertByYear a (sortByYearDesc l')).filter _ = _
    rw [filter_insertByYear, filter_sortByYearDesc y l']
    by_cases hy : a.year = y <;> simp [List.filter_cons, hy]

theorem filter_take_isPre {α : Type} (p : α → Bool) (n : Nat) (l : List α) :
    (l.take n).filter p <+: l.filter p :=
  ⟨(l.drop n).filter p, by rw [← List.filter_append, List.take_append_drop]⟩

/-- C9: the snapshot query returns at most 10 cars, all `"available"`,
sorted by year descending, and, because rows are scanned in insertion order
and the sort is stable, cars with equal year keep their store insertion
order (the returned rows of any fixed year form a prefix of that year's
available rows in insertion order). -/
theorem snapshot_spec (carsDb : List Car) :
    (snapshot carsDb).length ≤ 10
    ∧ (∀ c, c ∈ snapshot carsDb → c.status = "available")
    ∧ List.Pairwise (fun x z => z.year ≤ x.year) (snapshot carsDb)
    ∧ ∀ y : Nat, (snapshot carsDb).filter (fun c => c.year == y)
        <+: (carsDb.filter (fun c => c.status == "available")).filter (fun c => c.year == y) := by
  refine ⟨List.length_take_le 10 _, ?_, ?_, ?_⟩
  · intro c hc
    have h1 : c ∈ sortByYearDesc (carsDb.filter (fun c => c.status == "available")) :=
      List.take_subset 10 _ hc
    have h2 : c ∈ carsDb.filter (fun c => c.status == "available") :=
      (mem_sortByYearDesc c _).mp h1
    have := (List.mem_filter.mp h2).2
    exact eq_of_beq this
  · exact (pairwise_sortByYearDesc _).sublist (List.take_sublist 10 _)
  · intro y
    have h := filter_take_isPre (fun c => c.year == y) 10
      (sortByYearDesc (carsDb.filter (fun c => c.status == "available")))
    rw [filter_sortByYearDesc] at h
    exact h

/-- C9 witness: instantiated on the five seed cars; the 2022 Yaris is in the
snapshot and available. -/
theorem snapshot_spec_witness :
    (snapshot seed_cars).length ≤ 10
    ∧ (⟨"Toyota", "Yaris", 2022, 3900000, "15,000 km", "Petrol", "CVT",
        "Smart Entry, Push Start, Reverse Camera", "available"⟩ : Car).status = "available" :=
  ⟨(snapshot_spec seed_cars).1, (snapshot_spec seed_cars).2.1 _ (by decide)⟩

theorem lastN_length {α : Type} (n : Nat) (l : List α) :
    (lastN n l).length = min l.length n := by
  simp only [lastN, List.length_drop]
  omega

theorem lastN_concat_getLast {α : Type} (l : List α) (x : α) :
    (lastN 10 (l ++ [x])).getLast? = some x := by
  unfold lastN
  have h : (l ++ [x]).length - 10 ≤ l.length := by
    simp only [List.length_append, List.length_cons, List.length_nil]
    omega
  rw [List.drop_append_of_le_length h, List.getLast?_concat]

/-- C3 (amended): the backend history section is exactly the `min n 10` most
recent prior turns, rendered `role: content`, oldest first, and never
mentions the current user query (it is a function of the prior history
alone).  The frontend, however, builds its 10-turn window *after* appending
the current user message to the session list, so there the current query is
always the last line of the history section and at most 9 prior turns
remain. -/
theorem history_window_spec (hist : List (String × String)) (u : String) :
    backend_history_lines hist = (lastN 10 hist).map renderHistEntry
    ∧ (backend_history_lines hist).length = min hist.length 10
    ∧ (frontend_history_lines (hist ++ [("user", u)])).length = min (hist.length + 1) 10
    ∧ (frontend_history_lines (hist ++ [("user", u)])).getLast? = some ("user: " ++ u) := by
  refine ⟨rfl, ?_, ?_, ?_⟩
  · rw [backend_history_lines, List.length_map, lastN_length]
  · rw [frontend_history_lines, List.length_map, lastN_length,
      List.length_append, List.length_cons, List.length_nil]
  · rw [frontend_history_lines, List.getLast?_map, lastN_concat_getLast]
    rfl

/-- C3 counterexample: with exactly 10 prior turns and current query `"q6"`,
the frontend history window does contain the line `user: q6` (the claim says
the current query appears zero times) and has dropped the oldest prior turn
`user: q1` even though `min n 10 = 10`. -/
theorem history_window_cex :
    ("user: q6" ∈ frontend_history_lines
        ([("user", "q1"), ("assistant", "a1"), ("user", "q2"), ("assistant", "a2"),
          ("user", "q3"), ("assistant", "a3"), ("user", "q4"), ("assistant", "a4"),
          ("user", "q5"), ("assistant", "a5")] ++ [("user", "q6")]))
    ∧ ("user: q1" ∉ frontend_history_lines
        ([("user", "q1"), ("assistant", "a1"), ("user", "q2"), ("assistant", "a2"),
          ("user", "q3"), ("assistant", "a3"), ("user", "q4"), ("assistant", "a4"),
          ("user", "q5"), ("assistant", "a5")] ++ [("user", "q6")])) := by
  decide

/-- C1 (amended): the frontend chat turn persists both sides — after it, the
message store is the old store plus a `(s, "user", u)` row and then a
`(s, "assistant", reply)` row, in that order; the backend `/chat` endpoint,
by contrast, inserts no message rows at all (persistence on the API surface
is the separate `/messages/save` endpoint, which this handler never calls). -/
theorem chat_turn_persistence :
    (∀ (store : List MsgRow) (messages : List (String × String))
        (sid u : String) (key : Option String)
        (transport : String → HttpOutcome) (carsDb : List Car),
      (frontend_chat_turn store messages sid u key transport carsDb).store
        = store ++ [save_message_row sid "user" u,
            save_message_row sid "assistant"
              (frontend_chat_turn store messages sid u key transport carsDb).reply])
    ∧ ∀ (carsDb : List Car) (key : Option String) (transport : String → HttpOutcome)
        (sid u : String) (history : List (String × String)),
        (backend_chat carsDb key transport sid u history).message_writes = [] := by
  constructor
  · intro store messages sid u key transport carsDb
    simp [frontend_chat_turn]
  · intro carsDb key transport sid u history
    rfl

/-- C1 counterexample: processing a chat turn through the backend `/chat`
handler inserts nothing into the message collection — in particular the row
`(s1, user, hi)` required by the claim is absent. -/
theorem chat_turn_persistence_cex :
    (backend_chat [] none (fun _ => HttpOutcome.exn "down") "s1" "hi" []).message_writes = []
    ∧ save_message_row "s1" "user" "hi"
        ∉ (backend_chat [] none (fun _ => HttpOutcome.exn "down") "s1" "hi" []).message_writes := by
  exact ⟨rfl, by simp [backend_chat]⟩

/-- C6 (amended): with no API key configured, both gateways return their
fixed configuration fallback immediately — for every transport (hence no
outbound call is consulted) and independent of the prompt/query.  The
backend's fallback contains the support phone number, but the frontend's
key-missing message does not (the original claim asserted the phone number
for every path). -/
theorem no_key_spec :
    (∀ (transport : String → HttpOutcome) (prompt : String),
        backend_generate none transport prompt = Except.ok not_configured_fallback)
    ∧ (∀ (carsDb : List Car) (key : Option String) (transport : String → HttpOutcome)
        (sid u : String) (history : List (String × String)),
        key = none →
        (backend_chat carsDb key transport sid u history).response
          = Except.ok not_configured_fallback)
    ∧ (∀ (transport : String → HttpOutcome) (carsDb : List Car) (q h : String),
        frontend_ask none transport carsDb q h = frontend_key_missing_msg)
    ∧ containsSub "0300-1234567" not_configured_fallback = true := by
  refine ⟨fun _ _ => rfl, ?_, fun _ _ _ _ => rfl, by decide⟩
  intro carsDb key transport sid u history hk
  subst hk
  rfl

/-- C6 witness: the second conjunct instantiated at a concrete keyless chat
request; the response is the configuration fallback. -/
theorem no_key_spec_witness :
    (backend_chat seed_cars none (fun _ => HttpOutcome.exn "e") "s1" "hello" []).response
      = Except.ok not_configured_fallback :=
  no_key_spec.2.1 seed_cars none (fun _ => HttpOutcome.exn "e") "s1" "hello" [] rfl

/-- C6 counterexample: the frontend's keyless fallback is returned as-is but
contains no phone number, contradicting the claim that the immediate
fallback includes the human contact phone number. -/
theorem no_key_cex :
    frontend_ask none (fun _ => HttpOutcome.exn "e") [] "hi" "" = frontend_key_missing_msg
    ∧ containsSub "0300-1234567" frontend_key_missing_msg = false :=
  ⟨rfl, by decide⟩

/-- C7 (amended): the backend post-processing appends its fixed suggestion
line exactly when the text contains (case-insensitively) one of
`interested`, `would you like`, `book`, `schedule`, `test drive`, and
returns the text unmodified otherwise.  The frontend uses a different
trigger set — `shall i` instead of `test drive` — and a differently worded
suggestion line, so the claimed behaviour (with `test drive` as a trigger)
does not hold on the frontend path. -/
theorem apply_suffix_spec (t : String) :
    ((∃ w, w ∈ backend_triggers ∧ containsSub w (lowerStr t) = true) →
        backend_apply_suffix t = t ++ backend_suggestion)
    ∧ ((∀ w, w ∈ backend_triggers → containsSub w (lowerStr t) = false) →
        backend_apply_suffix t = t)
    ∧ ((∃ w, w ∈ frontend_triggers ∧ containsSub w (lowerStr t) = true) →
        frontend_apply_suffix t = t ++ frontend_suggestion)
    ∧ ((∀ w, w ∈ frontend_triggers → containsSub w (lowerStr t) = false) →
        frontend_apply_suffix t = t) := by
  refine ⟨?_, ?_, ?_, ?_⟩
  · rintro ⟨w, hw, hc⟩
    have h : backend_triggers.any (fun w => containsSub w (lowerStr t)) = true :=
      List.any_eq_true.mpr ⟨w, hw, hc⟩
    simp [backend_apply_suffix, h]
  · intro hall
    have h : backend_triggers.any (fun w => containsSub w (lowerStr t)) = false := by
      cases hb : backend_triggers.any (fun w => containsSub w (lowerStr t)) with
      | false => rfl
      | true =>
        rcases List.any_eq_true.mp hb with ⟨w, hw, hc⟩
        rw [hall w hw] at hc
        exact absurd hc (by simp)
    simp [backend_apply_suffix, h]
  · rintro ⟨w, hw, hc⟩
    have h : frontend_triggers.any (fun w => containsSub w (lowerStr t)) = true :=
      List.any_eq_true.mpr ⟨w, hw, hc⟩
    simp [frontend_apply_suffix, h]
  · intro hall
    have h : frontend_triggers.any (fun w => containsSub w (lowerStr t)) = false := by
      cases hb : frontend_triggers.any (fun w => containsSub w (lowerStr t)) with
      | false => rfl
      | true =>
        rcases List.any_eq_true.mp hb with ⟨w, hw, hc⟩
        rw [hall w hw] at hc
        exact absurd hc (by simp)
    simp [frontend_apply_suffix, h]

/-- C7 witness: a text containing `book` gets the backend suggestion line
appended; a neutral text is returned unmodified. -/
theorem apply_suffix_spec_witness :
    backend_apply_suffix "You can book a visit."
      = "You can book a visit." ++ backend_suggestion
    ∧ backend_apply_suffix "Our showroom is in Karachi." = "Our showroom is in Karachi." :=
  ⟨(apply_suffix_spec "You can book a visit.").1 ⟨"book", by decide, by decide⟩,
   (apply_suffix_spec "Our showroom is in Karachi.").2.1 (by decide)⟩

/-- C7 counterexample: a generated text containing the trigger `test drive`
(and no other trigger) is returned by the frontend gateway unmodified — no
suggestion line is appended, because the frontend trigger list omits
`test drive`. -/
theorem apply_suffix_cex :
    frontend_ask (some "k")
        (fun _ => HttpOutcome.resp 200 (gemini_body "Take it for a test drive today."))
        [] "hi" ""
      = "Take it for a test drive today."
    ∧ ciContains "test drive" "Take it for a test drive today." = true := by
  decide

/-- C8 (amended): lead, service-request and backend test-drive writes strip
every string field and default absent optional fields to `""`; but message
writes (both files) store `session_id`, `role` and `text` entirely
untrimmed, and the frontend test-drive write leaves `preferred_date` and
`preferred_time` untrimmed. -/
theorem write_trim_spec (sid role text name phone em cm pd pt : String)
    (email interested_in budget notes desc : Option String) :
    save_message_row sid role text = ⟨sid, role, text⟩
    ∧ backend_create_lead name phone email interested_in budget notes
        = ⟨pyStrip name, pyStrip phone, pyStrip (orEmpty email),
            pyStrip (orEmpty interested_in), pyStrip (orEmpty budget),
            pyStrip (orEmpty notes)⟩
    ∧ backend_create_lead name phone none none none none
        = ⟨pyStrip name, pyStrip phone, "", "", "", ""⟩
    ∧ backend_create_test_drive name phone email cm pd pt
        = ⟨pyStrip name, pyStrip phone, pyStrip (orEmpty email), pyStrip cm,
            pyStrip pd, pyStrip pt⟩
    ∧ frontend_save_test_drive name phone em cm pd pt
        = ⟨pyStrip name, pyStrip phone, pyStrip em, pyStrip cm, pd, pt⟩
    ∧ backend_create_service_request name phone cm role desc
        = ⟨pyStrip name, pyStrip phone, pyStrip cm, pyStrip role,
            pyStrip (orEmpty desc)⟩ :=
  ⟨rfl, rfl, rfl, rfl, rfl, rfl⟩

/-- C8 counterexample: a message write stores its text with surrounding
whitespace intact, and a frontend test-drive write stores the preferred
date untrimmed — both contradict "every string field is stored trimmed". -/
theorem write_trim_cex :
    (save_message_row "s1" "user" " hi ").text = " hi "
    ∧ pyStrip " hi " = "hi"
    ∧ (" hi " : String) ≠ "hi"
    ∧ (frontend_save_test_drive "n" "p" "" "m" " 2024-01-01 " "10:00 AM").preferred_date
        = " 2024-01-01 " := by
  exact ⟨rfl, by decide, by decide, rfl⟩

theorem backend_apply_suffix_trouble :
    backend_apply_suffix trouble_fallback = trouble_fallback := by decide

theorem backend_apply_suffix_couldnt :
    backend_apply_suffix couldnt_generate_fallback = couldnt_generate_fallback := by decide

/-- C5 (amended): on the backend path the gateway degrades every transport
failure to a fixed phone-bearing fallback: an exception or a 4xx/5xx status
yields the trouble fallback, a 2xx whose drill-down yields no truthy text
(in particular `candidates: []`) yields the couldn't-generate fallback, and
any 2xx body whose text field (when present and truthy) is a string never
produces an error.  Both backend fallbacks contain the phone number
0300-1234567.  (The original claim fails on the frontend path, whose
parse-failure message carries no phone number — see the counterexample —
and the string-shaped-text proviso is needed because a truthy non-string
text value escapes the backend's defensive parsing and becomes an HTTP
500.) -/
theorem gateway_fallback_spec :
    (∀ (k prompt e : String),
        backend_generate (some k) (fun _ => HttpOutcome.exn e) prompt
          = Except.ok trouble_fallback)
    ∧ (∀ (k prompt : String) (st : Nat) (body : JVal), 400 ≤ st → st < 600 →
        backend_generate (some k) (fun _ => HttpOutcome.resp st body) prompt
          = Except.ok trouble_fallback)
    ∧ (∀ (k prompt : String) (st : Nat) (body : JVal), ¬(400 ≤ st ∧ st < 600) →
        textShapeOk body = true →
        ∃ s, backend_generate (some k) (fun _ => HttpOutcome.resp st body) prompt
          = Except.ok s)
    ∧ (∀ (k prompt : String),
        backend_generate (some k)
          (fun _ => HttpOutcome.resp 200 (JVal.obj [("candidates", JVal.arr [])])) prompt
          = Except.ok couldnt_generate_fallback)
    ∧ containsSub "0300-1234567" trouble_fallback = true
    ∧ containsSub "0300-1234567" couldnt_generate_fallback = true := by
  refine ⟨?_, ?_, ?_, ?_, by decide, by decide⟩
  · intro k p e
    simp [backend_generate, backend_llm_step, backend_apply_suffix_trouble]
  · intro k p st body h1 h2
    have hstep : backend_llm_step (HttpOutcome.resp st body) = JVal.str trouble_fallback := by
      simp only [backend_llm_step]
      rw [if_pos ⟨h1, h2⟩]
    simp [backend_generate, hstep, backend_apply_suffix_trouble]
  · intro k p st body hst hshape
    have hstep : ∃ s, backend_llm_step (HttpOutcome.resp st body) = JVal.str s := by
      simp only [backend_llm_step]
      rw [if_neg hst]
      cases hx : extract_text body with
      | error e => exact ⟨trouble_fallback, rfl⟩
      | ok t =>
        cases ht : truthy t with
        | false => exact ⟨couldnt_generate_fallback, by simp [ht]⟩
        | true =>
          unfold textShapeOk at hshape
          rw [hx] at hshape
          cases t with
          | str s => exact ⟨s, by simp [ht]⟩
          | null => simp [ht] at hshape
          | bool b => simp [ht] at hshape
          | num n => simp [ht] at hshape
          | arr elems => simp [ht] at hshape
          | obj fields => simp [ht] at hshape
    obtain ⟨s, hs⟩ := hstep
    exact ⟨backend_apply_suffix s, by simp [backend_generate, hs]⟩
  · intro k p
    have hstep : backend_llm_step
        (HttpOutcome.resp 200 (JVal.obj [("candidates", JVal.arr [])]))
          = JVal.str couldnt_generate_fallback := rfl
    simp [backend_generate, hstep, backend_apply_suffix_couldnt]

/-- C5 witness: instantiated at a 500 response (trouble fallback) and at a
200 response with an object body lacking candidates (no error raised). -/
theorem gateway_fallback_spec_witness :
    backend_generate (some "k") (fun _ => HttpOutcome.resp 500 JVal.null) "p"
      = Except.ok trouble_fallback
    ∧ ∃ s, backend_generate (some "k") (fun _ => HttpOutcome.resp 200 (JVal.obj [])) "p"
        = Except.ok s :=
  ⟨gateway_fallback_spec.2.1 "k" "p" 500 JVal.null (by decide) (by decide),
   gateway_fallback_spec.2.2.1 "k" "p" 200 (JVal.obj []) (by decide) (by decide)⟩

/-- C5 counterexample: the frontend gateway answers a 200 response with an
empty candidates list by the fixed parse-failure message, which is not the
couldn't-generate fallback and contains no phone number — contradicting the
claim for this transport outcome. -/
theorem gateway_fallback_cex :
    frontend_ask (some "k")
        (fun _ => HttpOutcome.resp 200 (JVal.obj [("candidates", JVal.arr [])]))
        [] "hi" ""
      = frontend_parse_fail_msg
    ∧ containsSub "0300-1234567" frontend_parse_fail_msg = false
    ∧ frontend_parse_fail_msg ≠ couldnt_generate_fallback := by
  decide
